import Mathlib

/-!
Shallow embedding of the generation-session logic of `src/app.py`
(Z-Image local GUI): the `apply_lora` adapter state machine and the
`generate_image` request handler, together with theorems about the
adapter invariants, seed resolution, validation, output naming and
error handling.

External effects are made explicit:
* the LoRA directory is a list of file names (`os.path.exists` becomes
  membership);
* `random.randint(0, 2147483647)` becomes an oracle value `randDraw`
  constrained to that range where a theorem needs it;
* the pipeline call `pipe(...)` becomes an oracle `inference :
  Except String Image` (success image or raised-exception message);
* `pipe.load_lora_weights` may raise, modelled by the oracle
  `loadErr : Option String`;
* calls issued on the pipeline object (`unload_lora_weights`,
  `load_lora_weights`, `set_adapters`) are recorded as an event trace;
* the attached-adapter set of the pipeline is the `attached` list of `Pipe`;
* `torch.cuda.empty_cache()` is recorded in the `cacheCleared` flag;
* the output directory is a list of file names, a write appends.
-/

namespace ZImage

/-- A pipeline call issued by `apply_lora` (src/app.py lines 110, 123, 125, 130):
`unload_lora_weights()`, `load_lora_weights(..., weight_name=name, adapter_name="active")`
and `set_adapters(["active"], adapter_weights=[w])`. -/
inductive LoraEvent where
  | unload : LoraEvent
  | load : String → LoraEvent
  | setWeight : Rat → LoraEvent
deriving DecidableEq

/-- The loaded pipeline; `attached` is the list of adapter names currently
attached to the model (diffusers state mutated by load/unload calls). -/
structure Pipe where
  attached : List String
deriving DecidableEq

/-- A generated image, abstract (the embedding never inspects pixels). -/
structure Image where
  data : Nat
deriving DecidableEq

/-- Result of one `apply_lora` call: final globals (`pipe`, `current_lora`),
the trace of pipeline calls issued, and a propagated exception if
`load_lora_weights` raised. -/
structure ApplyOut where
  pipe : Option Pipe
  currentLora : Option String
  events : List LoraEvent
  err : Option String
deriving DecidableEq

/-- Shallow embedding of `apply_lora(lora_name, lora_weight)`
(src/app.py lines 101-130).

* `pipe is None` → return (no change, no calls);
* `not lora_name or lora_name == "Off"` → unload if a LoRA is active,
  else no-op;
* `not os.path.exists(lora_path)` (here `loraName ∉ loraDir`) → print
  and return (no change, no calls, NO exception);
* `current_lora != lora_name` → unload the active LoRA if any, then
  `load_lora_weights` (which may raise `loadErr`; on success the
  adapter named "active" is attached and `current_lora` updated);
* finally `set_adapters(["active"], [float(lora_weight)])`. -/
def apply_lora (loraDir : List String) (loadErr : Option String)
    (pipe : Option Pipe) (currentLora : Option String)
    (loraName : String) (loraWeight : Rat) : ApplyOut :=
  match pipe with
  | none => ⟨none, currentLora, [], none⟩
  | some p =>
    if loraName = "" ∨ loraName = "Off" then
      match currentLora with
      | some _ => ⟨some ⟨[]⟩, none, [LoraEvent.unload], none⟩
      | none => ⟨some p, none, [], none⟩
    else if loraName ∉ loraDir then
      ⟨some p, currentLora, [], none⟩
    else if currentLora ≠ some loraName then
      let afterUnload : Pipe := match currentLora with
        | some _ => ⟨[]⟩
        | none => p
      let preEvents : List LoraEvent := match currentLora with
        | some _ => [LoraEvent.unload]
        | none => []
      match loadErr with
      | some e => ⟨some afterUnload, currentLora, preEvents, some e⟩
      | none =>
        ⟨some ⟨afterUnload.attached ++ ["active"]⟩, some loraName,
          preEvents ++ [LoraEvent.load loraName, LoraEvent.setWeight loraWeight], none⟩
    else
      ⟨some p, currentLora, [LoraEvent.setWeight loraWeight], none⟩

/-- Python `str.strip()` semantics (whitespace removed from both ends), used in
the blank-prompt test `not prompt.strip()` (src/app.py line 137). -/
def pyStrip (s : String) : String :=
  ⟨((s.data.dropWhile Char.isWhitespace).reverse.dropWhile Char.isWhitespace).reverse⟩

/-- Seed resolution (src/app.py lines 140-141): the sentinel `-1` is
replaced by `random.randint(0, 2147483647)` (oracle `randDraw`),
any other value is used literally. -/
def resolve_seed (seed : Int) (randDraw : Nat) : Int :=
  if seed = -1 then (randDraw : Int) else seed

/-- The LoRA part of the log/status line (src/app.py line 149). -/
def lora_info (loraName : String) (loraWeight : Rat) : String :=
  if loraName ≠ "" ∧ loraName ≠ "Off" then
    " | LoRA: " ++ loraName ++ " (" ++ toString loraWeight ++ ")"
  else ""

/-- Output file name (src/app.py lines 170-171):
`f"Z-Image_\x7btimestamp\x7d_seed\x7bseed\x7d.png"`. -/
def output_filename (timestamp : String) (seed : Int) : String :=
  "Z-Image_" ++ timestamp ++ "_seed" ++ toString seed ++ ".png"

/-- The argument record of the `pipe(...)` inference call
(src/app.py lines 158-166). -/
structure InferCall where
  prompt : String
  steps : Int
  guidanceScale : Rat
  width : Int
  height : Int
  maxSequenceLength : Int
  seed : Int
deriving DecidableEq

/-- Result of one `generate_image` call: the returned pair
(image, status), the final globals, the pipeline-call trace, the
inference call issued (if any), the output directory contents, whether
`torch.cuda.empty_cache()` ran, and the resolved seed (if resolution
was reached). -/
structure GenOut where
  image : Option Image
  status : String
  pipe : Option Pipe
  currentLora : Option String
  loraEvents : List LoraEvent
  inferCall : Option InferCall
  outputFiles : List String
  cacheCleared : Bool
  seedUsed : Option Int
deriving DecidableEq

/-- Shallow embedding of
`generate_image(prompt, steps, seed, width, height, lora_name, lora_weight)`
(src/app.py lines 132-181).

* `pipe is None` → `(None, "Error: Model not loaded!")`;
* blank prompt (`not prompt or not prompt.strip()`) →
  `(None, "Error: Please enter a prompt.")`;
* resolve the seed (lines 140-141);
* `apply_lora` (line 145); a raised exception is caught and returned
  as `"Error loading LoRA: ..."` (lines 146-147);
* `pipe(prompt, num_inference_steps=int(steps), guidance_scale=0.0,
  width=int(width), height=int(height), max_sequence_length=1024,
  generator=seeded(seed))` (lines 158-166), outcome given by the
  `inference` oracle;
* success: save `Z-Image_<timestamp>_seed<seed>.png` (lines 170-174;
  `image.save` writes unconditionally), `torch.cuda.empty_cache()`,
  return the image and the done/seed status (lines 175-176);
* raised exception: `torch.cuda.empty_cache()`, return
  `(None, "Error: ...")` (lines 178-181). -/
def generate_image (loraDir : List String) (loadErr : Option String)
    (pipe0 : Option Pipe) (currentLora0 : Option String)
    (outputFiles0 : List String)
    (randDraw : Nat) (inference : Except String Image)
    (timestamp : String) (durationStr : String)
    (prompt : String) (steps : Int) (seed : Int) (width : Int) (height : Int)
    (loraName : String) (loraWeight : Rat) : GenOut :=
  match pipe0 with
  | none =>
    ⟨none, "Error: Model not loaded!", none, currentLora0, [], none,
      outputFiles0, false, none⟩
  | some _ =>
    if prompt = "" ∨ pyStrip prompt = "" then
      ⟨none, "Error: Please enter a prompt.", pipe0, currentLora0, [], none,
        outputFiles0, false, none⟩
    else
      let seed1 : Int := resolve_seed seed randDraw
      let ap := apply_lora loraDir loadErr pipe0 currentLora0 loraName loraWeight
      match ap.err with
      | some e =>
        ⟨none, "Error loading LoRA: " ++ e, ap.pipe, ap.currentLora, ap.events,
          none, outputFiles0, false, some seed1⟩
      | none =>
        let call : InferCall := ⟨prompt, steps, 0, width, height, 1024, seed1⟩
        match inference with
        | Except.ok img =>
          ⟨some img,
            "✅ Done in " ++ durationStr ++ "s! Seed: " ++ toString seed1 ++
              lora_info loraName loraWeight,
            ap.pipe, ap.currentLora, ap.events, some call,
            outputFiles0 ++ [output_filename timestamp seed1], true, some seed1⟩
        | Except.error e =>
          ⟨none, "Error: " ++ e, ap.pipe, ap.currentLora, ap.events, some call,
            outputFiles0, true, some seed1⟩

/-- Number of adapters attached to the (optional) pipeline. -/
def attachedCount : Option Pipe → Nat
  | none => 0
  | some p => p.attached.length

/-- Replay a pipeline-call trace over an attached-adapter count:
`unload` detaches everything, `load` attaches one more adapter,
`setWeight` changes no attachment. -/
def replayAttached : Nat → List LoraEvent → Nat
  | n, [] => n
  | _, LoraEvent.unload :: es => replayAttached 0 es
  | n, LoraEvent.load _ :: es => replayAttached (n + 1) es
  | n, LoraEvent.setWeight _ :: es => replayAttached n es

/-- Number of `load_lora_weights` calls in a trace. -/
def countLoads (es : List LoraEvent) : Nat :=
  (es.filter fun e => match e with
    | LoraEvent.load _ => true
    | _ => false).length

/-! Decimal representation: `Nat.repr` (hence `toString` on nonnegative
`Int`) is injective, needed for non-collision of output file names. -/

/-- Big-endian decimal digit characters of `n` (`['0']` for zero);
equals `Nat.toDigits 10 n` (shown in `toDigits_eq_reprChars`). -/
def reprChars (n : Nat) : List Char :=
  if n = 0 then ['0'] else ((Nat.digits 10 n).map Nat.digitChar).reverse

theorem reprChars_step (n : Nat) (h : n / 10 ≠ 0) :
    reprChars n = reprChars (n / 10) ++ [Nat.digitChar (n % 10)] := by
  have hn : n ≠ 0 := by
    intro h0
    subst h0
    simp at h
  rw [reprChars, if_neg hn, Nat.digits_def' (by norm_num : (1 : Nat) < 10)
    (Nat.pos_of_ne_zero hn), reprChars, if_neg h]
  simp

theorem toDigitsCore_eq_reprChars (fuel : Nat) :
    ∀ (n : Nat) (ds : List Char), n < fuel →
      Nat.toDigitsCore 10 fuel n ds = reprChars n ++ ds := by
  induction fuel with
  | zero => intro n ds h; omega
  | succ f ih =>
    intro n ds _
    by_cases h10 : n / 10 = 0
    · have hrc : reprChars n = [Nat.digitChar (n % 10)] := by
        by_cases hn : n = 0
        · subst hn; rfl
        · rw [reprChars, if_neg hn, Nat.digits_def' (by norm_num : (1 : Nat) < 10)
            (Nat.pos_of_ne_zero hn), h10]
          simp
      simp [Nat.toDigitsCore, h10, hrc]
    · have hlt : n / 10 < f := by omega
      simp only [Nat.toDigitsCore, h10, if_false]
      rw [ih (n / 10) _ hlt, reprChars_step n h10]
      simp

theorem toDigits_eq_reprChars (n : Nat) : Nat.toDigits 10 n = reprChars n := by
  rw [Nat.toDigits, toDigitsCore_eq_reprChars (n + 1) n [] (Nat.lt_succ_self n)]
  simp

theorem digitChar_inj_lt_ten :
    ∀ a, a < 10 → ∀ b, b < 10 → Nat.digitChar a = Nat.digitChar b → a = b := by
  decide

theorem map_digitChar_inj :
    ∀ (l1 l2 : List Nat), (∀ d ∈ l1, d < 10) → (∀ d ∈ l2, d < 10) →
      l1.map Nat.digitChar = l2.map Nat.digitChar → l1 = l2
  | [], [], _, _, _ => rfl
  | [], _ :: _, _, _, h => by simp at h
  | _ :: _, [], _, _, h => by simp at h
  | a :: l1, b :: l2, hb1, hb2, h => by
    simp only [List.map_cons, List.cons.injEq] at h
    have hhead : a = b :=
      digitChar_inj_lt_ten a (hb1 a (List.mem_cons_self a l1))
        b (hb2 b (List.mem_cons_self b l2)) h.1
    have htail : l1 = l2 :=
      map_digitChar_inj l1 l2
        (fun d hd => hb1 d (List.mem_cons_of_mem a hd))
        (fun d hd => hb2 d (List.mem_cons_of_mem b hd)) h.2
    rw [hhead, htail]

theorem reprChars_ne_singleton_zero (n : Nat) (hn : n ≠ 0) :
    reprChars n ≠ ['0'] := by
  rw [reprChars, if_neg hn]
  intro h
  have h' : (Nat.digits 10 n).map Nat.digitChar = ['0'] := by
    have := congrArg List.reverse h
    simpa using this
  rcases hds : Nat.digits 10 n with _ | ⟨d, rest⟩
  · rw [hds] at h'; simp at h'
  · rw [hds] at h'
    simp only [List.map_cons, List.cons.injEq] at h'
    have hrest : rest = [] := List.map_eq_nil_iff.mp h'.2
    have hd10 : d < 10 := Nat.digits_lt_base (by norm_num) (hds ▸ List.mem_cons_self d rest)
    have hd0 : d = 0 := by
      have : Nat.digitChar 0 = '0' := rfl
      exact digitChar_inj_lt_ten d hd10 0 (by norm_num) (h'.1.trans this.symm)
    have := Nat.ofDigits_digits 10 n
    rw [hds, hrest, hd0] at this
    simp [Nat.ofDigits] at this
    exact hn this.symm

theorem reprChars_inj (m n : Nat) (h : reprChars m = reprChars n) : m = n := by
  have h0 : reprChars 0 = ['0'] := rfl
  by_cases hm : m = 0 <;> by_cases hn : n = 0
  · rw [hm, hn]
  · subst hm
    exact absurd (h.symm.trans h0) (reprChars_ne_singleton_zero n hn)
  · subst hn
    exact absurd (h.trans h0) (reprChars_ne_singleton_zero m hm)
  · rw [reprChars, if_neg hm, reprChars, if_neg hn] at h
    have h' : (Nat.digits 10 m).map Nat.digitChar = (Nat.digits 10 n).map Nat.digitChar := by
      have := congrArg List.reverse h
      simpa using this
    have hdig : Nat.digits 10 m = Nat.digits 10 n :=
      map_digitChar_inj _ _
        (fun d hd => Nat.digits_lt_base (by norm_num) hd)
        (fun d hd => Nat.digits_lt_base (by norm_num) hd) h'
    exact Nat.digits.injective 10 hdig

theorem natRepr_inj (m n : Nat) (h : Nat.repr m = Nat.repr n) : m = n := by
  have hd : Nat.toDigits 10 m = Nat.toDigits 10 n := congrArg String.data h
  rw [toDigits_eq_reprChars, toDigits_eq_reprChars] at hd
  exact reprChars_inj m n hd

theorem intToString_inj (a b : Int) (ha : 0 ≤ a) (hb : 0 ≤ b)
    (h : toString a = toString b) : a = b := by
  obtain ⟨m, rfl⟩ := Int.eq_ofNat_of_zero_le ha
  obtain ⟨n, rfl⟩ := Int.eq_ofNat_of_zero_le hb
  have h' : Nat.repr m = Nat.repr n := h
  rw [natRepr_inj m n h']

theorem output_filename_inj (ts : String) (s1 s2 : Int)
    (h1 : 0 ≤ s1) (h2 : 0 ≤ s2)
    (h : output_filename ts s1 = output_filename ts s2) : s1 = s2 := by
  have hd := congrArg String.data h
  simp only [output_filename, String.data_append] at hd
  have hmid : (toString s1).data = (toString s2).data :=
    List.append_cancel_left (List.append_cancel_right hd)
  exact intToString_inj s1 s2 h1 h2 (String.ext hmid)

/-- When `load_lora_weights` does not raise, `apply_lora` propagates no
exception (the missing-file path prints and returns, it does not raise). -/
theorem apply_lora_err_none (loraDir : List String) (pipe : Option Pipe)
    (cur : Option String) (name : String) (w : Rat) :
    (apply_lora loraDir none pipe cur name w).err = none := by
  unfold apply_lora
  cases pipe with
  | none => rfl
  | some p =>
    by_cases h1 : name = "" ∨ name = "Off"
    · simp only [if_pos h1]
      cases cur <;> rfl
    · simp only [if_neg h1]
      by_cases h2 : name ∉ loraDir
      · simp only [if_pos h2]
      · simp only [if_neg h2]
        by_cases h3 : cur ≠ some name
        · simp only [if_pos h3]
        · simp only [if_neg h3]

/-- C10: if no model is loaded (`pipe is None`), `generate_image` returns
no image and the "Error: Model not loaded!" status with no state change,
no pipeline call, no inference and no file written; and `apply_lora` is a
silent no-op, for every input. -/
theorem no_model_loaded_noop
    (loraDir : List String) (loadErr : Option String)
    (currentLora0 : Option String) (outputFiles0 : List String)
    (randDraw : Nat) (inference : Except String Image)
    (timestamp durationStr prompt : String) (steps seed width height : Int)
    (loraName : String) (loraWeight : Rat) :
    generate_image loraDir loadErr none currentLora0 outputFiles0 randDraw
        inference timestamp durationStr prompt steps seed width height
        loraName loraWeight =
      ⟨none, "Error: Model not loaded!", none, currentLora0, [], none,
        outputFiles0, false, none⟩
    ∧ apply_lora loraDir loadErr none currentLora0 loraName loraWeight =
      ⟨none, currentLora0, [], none⟩ :=
  ⟨rfl, rfl⟩

/-- C7: a request whose prompt is empty or whitespace-only is rejected as
a hard error (no image, the user-visible "Error: Please enter a prompt."
message, no pipeline call, no inference, no state change); and this is
the only input condition rejected: any request with a non-blank prompt
against a loaded model proceeds to inference and, on inference success,
returns an image — whatever the steps/seed/width/height/adapter inputs
are. -/
theorem blank_prompt_only_rejection
    (loraDir : List String) (loadErr : Option String) (p : Pipe)
    (currentLora0 : Option String) (outputFiles0 : List String)
    (randDraw : Nat) (inference : Except String Image)
    (timestamp durationStr prompt : String) (steps seed width height : Int)
    (loraName : String) (loraWeight : Rat) :
    (pyStrip prompt = "" →
      generate_image loraDir loadErr (some p) currentLora0 outputFiles0
          randDraw inference timestamp durationStr prompt steps seed width
          height loraName loraWeight =
        ⟨none, "Error: Please enter a prompt.", some p, currentLora0, [],
          none, outputFiles0, false, none⟩)
    ∧ (pyStrip prompt ≠ "" → loadErr = none →
        ∀ img, inference = Except.ok img →
          (generate_image loraDir loadErr (some p) currentLora0 outputFiles0
            randDraw inference timestamp durationStr prompt steps seed width
            height loraName loraWeight).image = some img) := by
  constructor
  · intro h
    unfold generate_image
    rw [if_pos (Or.inr h)]
  · intro h hload img hinf
    have hp : ¬ (prompt = "" ∨ pyStrip prompt = "") := by
      rintro (he | he)
      · exact h (by rw [he]; rfl)
      · exact h he
    subst hload
    subst hinf
    unfold generate_image
    rw [if_neg hp]
    simp only [apply_lora_err_none]

/-- Witness for C7: a whitespace-only prompt is rejected with the exact
message and no state change; a non-blank prompt with out-of-range inputs
is not rejected and yields the inference image. -/
theorem blank_prompt_only_rejection_witness :
    (generate_image [] none (some ⟨[]⟩) none [] 0 (Except.ok ⟨1⟩) "T" "1.00"
        "   " 8 42 1024 1024 "Off" 1 =
      ⟨none, "Error: Please enter a prompt.", some ⟨[]⟩, none, [], none, [],
        false, none⟩)
    ∧ (generate_image [] none (some ⟨[]⟩) none [] 0 (Except.ok ⟨1⟩) "T" "1.00"
        "a cat" 99 42 100 9999 "missing.safetensors" 1).image = some ⟨1⟩ :=
  ⟨(blank_prompt_only_rejection [] none ⟨[]⟩ none [] 0 (Except.ok ⟨1⟩) "T"
      "1.00" "   " 8 42 1024 1024 "Off" 1).1 (by decide),
   (blank_prompt_only_rejection [] none ⟨[]⟩ none [] 0 (Except.ok ⟨1⟩) "T"
      "1.00" "a cat" 99 42 100 9999 "missing.safetensors" 1).2 (by decide)
      rfl ⟨1⟩ rfl⟩

/-- C2: once a request passes the model/prompt checks, the resolved seed
is `randDraw` (the value of `random.randint(0, 2147483647)`, hence in
`[0, 2^31-1]`) when the requested seed is the sentinel `-1`, and the
literal requested seed otherwise; the resolved seed is recorded in the
result, and on success the returned status reports exactly this resolved
seed. -/
theorem seed_resolution_reported
    (loraDir : List String) (loadErr : Option String) (p : Pipe)
    (currentLora0 : Option String) (outputFiles0 : List String)
    (randDraw : Nat) (inference : Except String Image)
    (timestamp durationStr prompt : String) (steps seed width height : Int)
    (loraName : String) (loraWeight : Rat)
    (hdraw : randDraw ≤ 2147483647) (hprompt : pyStrip prompt ≠ "") :
    ((generate_image loraDir loadErr (some p) currentLora0 outputFiles0
        randDraw inference timestamp durationStr prompt steps seed width
        height loraName loraWeight).seedUsed = some (resolve_seed seed randDraw))
    ∧ (seed = -1 → resolve_seed seed randDraw = randDraw ∧
        0 ≤ resolve_seed seed randDraw ∧
        resolve_seed seed randDraw ≤ 2147483647)
    ∧ (seed ≠ -1 → resolve_seed seed randDraw = seed)
    ∧ (loadErr = none → ∀ img, inference = Except.ok img →
        (generate_image loraDir loadErr (some p) currentLora0 outputFiles0
            randDraw inference timestamp durationStr prompt steps seed width
            height loraName loraWeight).status =
          "✅ Done in " ++ durationStr ++ "s! Seed: " ++
            toString (resolve_seed seed randDraw) ++
            lora_info loraName loraWeight) := by
  have hp : ¬ (prompt = "" ∨ pyStrip prompt = "") := by
    rintro (he | he)
    · exact hprompt (by rw [he]; rfl)
    · exact hprompt he
  refine ⟨?_, ?_, ?_, ?_⟩
  · simp only [generate_image, if_neg hp]
    cases hap : (apply_lora loraDir loadErr (some p) currentLora0 loraName
        loraWeight).err with
    | none =>
      simp only [hap]
      cases inference <;> rfl
    | some e => simp only [hap]
  · intro h
    subst h
    have hr : resolve_seed (-1) randDraw = (randDraw : Int) := by
      simp [resolve_seed]
    refine ⟨hr, ?_, ?_⟩
    · rw [hr]
      omega
    · rw [hr]
      omega
  · intro h
    simp [resolve_seed, h]
  · intro hload img hinf
    subst hload
    subst hinf
    unfold generate_image
    rw [if_neg hp]
    simp only [apply_lora_err_none]

/-- Witness for C2: sentinel seed `-1` with draw `123` resolves to `123`
and is reported in the status; literal seed `42` resolves to itself. -/
theorem seed_resolution_reported_witness :
    ((generate_image [] none (some ⟨[]⟩) none [] 123 (Except.ok ⟨1⟩) "T"
        "1.00" "a cat" 8 (-1) 1024 1024 "Off" 1).seedUsed = some 123)
    ∧ ((generate_image [] none (some ⟨[]⟩) none [] 123 (Except.ok ⟨1⟩) "T"
        "1.00" "a cat" 8 (-1) 1024 1024 "Off" 1).status =
          "✅ Done in 1.00s! Seed: 123")
    ∧ ((generate_image [] none (some ⟨[]⟩) none [] 123 (Except.ok ⟨1⟩) "T"
        "1.00" "a cat" 8 42 1024 1024 "Off" 1).seedUsed = some 42) := by
  have h1 := seed_resolution_reported [] none ⟨[]⟩ none [] 123
    (Except.ok ⟨1⟩) "T" "1.00" "a cat" 8 (-1) 1024 1024 "Off" 1
    (by decide) (by decide)
  have h2 := seed_resolution_reported [] none ⟨[]⟩ none [] 123
    (Except.ok ⟨1⟩) "T" "1.00" "a cat" 8 42 1024 1024 "Off" 1
    (by decide) (by decide)
  refine ⟨?_, ?_, ?_⟩
  · rw [h1.1]
    rfl
  · have := h1.2.2.2 rfl ⟨1⟩ rfl
    rw [this]
    rfl
  · rw [h2.1]
    rfl

/-- Behaviour of `apply_lora` when the requested LoRA equals the active one: only a
weight update is issued (src/app.py line 130), no reload. -/
theorem apply_lora_same_name (loraDir : List String) (loadErr : Option String)
    (p : Pipe) (name : String) (w : Rat)
    (h1 : name ≠ "") (h2 : name ≠ "Off") (h3 : name ∈ loraDir) :
    apply_lora loraDir loadErr (some p) (some name) name w =
      ⟨some p, some name, [LoraEvent.setWeight w], none⟩ := by
  simp [apply_lora, h1, h2, h3]

/-- Behaviour of `apply_lora` loading a LoRA when none is active: a single load then a
weight update, no unload. -/
theorem apply_lora_fresh (loraDir : List String) (p : Pipe)
    (name : String) (w : Rat)
    (h1 : name ≠ "") (h2 : name ≠ "Off") (h3 : name ∈ loraDir) :
    apply_lora loraDir none (some p) none name w =
      ⟨some ⟨p.attached ++ ["active"]⟩, some name,
        [LoraEvent.load name, LoraEvent.setWeight w], none⟩ := by
  simp [apply_lora, h1, h2, h3]

/-- Behaviour of `apply_lora` swapping from an active LoRA to a different one: the
active one is unloaded first, then the new one is loaded and its weight
set. -/
theorem apply_lora_swap (loraDir : List String) (p : Pipe)
    (a name : String) (w : Rat)
    (h1 : name ≠ "") (h2 : name ≠ "Off") (h3 : name ∈ loraDir)
    (hne : name ≠ a) :
    apply_lora loraDir none (some p) (some a) name w =
      ⟨some ⟨[] ++ ["active"]⟩, some name,
        [LoraEvent.unload, LoraEvent.load name, LoraEvent.setWeight w],
        none⟩ := by
  have hne' : a ≠ name := fun h => hne h.symm
  simp [apply_lora, h1, h2, h3, hne']

/-- C4: applying the same adapter twice in a row does not re-trigger a
reload: the second call issues only a weight update (no load, no
unload), and across the two consecutive calls the load operation is
issued at most once. -/
theorem adapter_swap_idempotent (loraDir : List String) (p : Pipe)
    (cur0 : Option String) (A : String) (w1 w2 : Rat)
    (loadErr2 : Option String)
    (hA1 : A ≠ "") (hA2 : A ≠ "Off") (hin : A ∈ loraDir) :
    (apply_lora loraDir loadErr2
        (apply_lora loraDir none (some p) cur0 A w1).pipe
        (apply_lora loraDir none (some p) cur0 A w1).currentLora A w2).events =
      [LoraEvent.setWeight w2]
    ∧ countLoads
        ((apply_lora loraDir none (some p) cur0 A w1).events ++
          (apply_lora loraDir loadErr2
            (apply_lora loraDir none (some p) cur0 A w1).pipe
            (apply_lora loraDir none (some p) cur0 A w1).currentLora A
            w2).events) ≤ 1 := by
  by_cases hc : cur0 = some A
  · subst hc
    rw [apply_lora_same_name loraDir none p A w1 hA1 hA2 hin]
    rw [apply_lora_same_name loraDir loadErr2 p A w2 hA1 hA2 hin]
    exact ⟨rfl, by simp [countLoads]⟩
  · cases cur0 with
    | none =>
      rw [apply_lora_fresh loraDir p A w1 hA1 hA2 hin]
      rw [apply_lora_same_name loraDir loadErr2 _ A w2 hA1 hA2 hin]
      exact ⟨rfl, by simp [countLoads]⟩
    | some a =>
      have hne : A ≠ a := fun h => hc (by rw [h])
      rw [apply_lora_swap loraDir p a A w1 hA1 hA2 hin hne]
      rw [apply_lora_same_name loraDir loadErr2 _ A w2 hA1 hA2 hin]
      exact ⟨rfl, by simp [countLoads]⟩

/-- Witness for C4 at concrete inputs (a fresh load then a repeat). -/
theorem adapter_swap_idempotent_witness :
    (apply_lora ["a.safetensors"] none
        (apply_lora ["a.safetensors"] none (some ⟨[]⟩) none "a.safetensors" 1).pipe
        (apply_lora ["a.safetensors"] none (some ⟨[]⟩) none "a.safetensors" 1).currentLora
        "a.safetensors" 2).events = [LoraEvent.setWeight 2]
    ∧ countLoads
        ((apply_lora ["a.safetensors"] none (some ⟨[]⟩) none "a.safetensors" 1).events ++
          (apply_lora ["a.safetensors"] none
            (apply_lora ["a.safetensors"] none (some ⟨[]⟩) none "a.safetensors" 1).pipe
            (apply_lora ["a.safetensors"] none (some ⟨[]⟩) none "a.safetensors" 1).currentLora
            "a.safetensors" 2).events) ≤ 1 :=
  adapter_swap_idempotent ["a.safetensors"] ⟨[]⟩ none "a.safetensors" 1 2 none
    (by decide) (by decide) (by decide)

/-- C5: zero-or-one-adapter invariant and detach-before-attach. If at
most one adapter is attached (and none when no LoRA is recorded active),
then after any `apply_lora` call at most one adapter is attached (none
when the recorded LoRA is cleared), replaying the issued pipeline-call
trace never passes through a state with two adapters attached, a
transition from active adapter `a` to a different existing adapter `name`
issues exactly unload-then-load-then-set-weight, and a transition from an
active adapter to "none"/"Off" issues exactly an unload. -/
theorem single_adapter_invariant (loraDir : List String)
    (loadErr : Option String) (p : Pipe) (cur : Option String)
    (name : String) (w : Rat)
    (hinv : attachedCount (some p) ≤ 1)
    (hcons : cur = none → attachedCount (some p) = 0) :
    attachedCount (apply_lora loraDir loadErr (some p) cur name w).pipe ≤ 1
    ∧ ((apply_lora loraDir loadErr (some p) cur name w).currentLora = none →
        attachedCount (apply_lora loraDir loadErr (some p) cur name w).pipe = 0)
    ∧ (∀ k, replayAttached (attachedCount (some p))
        ((apply_lora loraDir loadErr (some p) cur name w).events.take k) ≤ 1)
    ∧ (∀ a, cur = some a → name ≠ "" → name ≠ "Off" → name ∈ loraDir →
        name ≠ a → loadErr = none →
        (apply_lora loraDir loadErr (some p) cur name w).events =
          [LoraEvent.unload, LoraEvent.load name, LoraEvent.setWeight w])
    ∧ (cur ≠ none → (name = "" ∨ name = "Off") →
        (apply_lora loraDir loadErr (some p) cur name w).events =
            [LoraEvent.unload]
          ∧ (apply_lora loraDir loadErr (some p) cur name w).currentLora =
            none) := by
  have hinv' : p.attached.length ≤ 1 := hinv
  by_cases h1 : name = "" ∨ name = "Off"
  · cases cur with
    | none =>
      have he : apply_lora loraDir loadErr (some p) none name w =
          ⟨some p, none, [], none⟩ := by
        simp [apply_lora, h1]
      rw [he]
      refine ⟨hinv, fun _ => hcons rfl, ?_, ?_, ?_⟩
      · intro k
        simpa [replayAttached] using hinv
      · intro a ha
        exact absurd ha (by simp)
      · intro hcur
        exact absurd rfl hcur
    | some a0 =>
      have he : apply_lora loraDir loadErr (some p) (some a0) name w =
          ⟨some ⟨[]⟩, none, [LoraEvent.unload], none⟩ := by
        simp [apply_lora, h1]
      rw [he]
      refine ⟨by simp [attachedCount], fun _ => by simp [attachedCount],
        ?_, ?_, ?_⟩
      · intro k
        rcases k with _ | k <;> simp [replayAttached, attachedCount]
        omega
      · intro a _ hna hnb _ _ _
        rcases h1 with h | h
        · exact absurd h hna
        · exact absurd h hnb
      · intro _ _
        exact ⟨rfl, rfl⟩
  · by_cases h2 : name ∈ loraDir
    · by_cases h3 : cur = some name
      · subst h3
        push_neg at h1
        rw [apply_lora_same_name loraDir loadErr p name w h1.1 h1.2 h2]
        refine ⟨hinv, by simp, ?_, ?_, ?_⟩
        · intro k
          rcases k with _ | k <;>
            simpa [replayAttached, attachedCount] using hinv
        · intro a ha _ _ _ hne _
          exact absurd (Option.some.inj ha) hne
        · intro _ hOff
          rcases hOff with h | h
          · exact absurd h h1.1
          · exact absurd h h1.2
      · push_neg at h1
        cases hle : loadErr with
        | some e =>
          cases cur with
          | none =>
            have he : apply_lora loraDir (some e) (some p) none name w =
                ⟨some p, none, [], some e⟩ := by
              simp [apply_lora, h1.1, h1.2, h2]
            rw [he]
            refine ⟨hinv, fun _ => hcons rfl, ?_, ?_, ?_⟩
            · intro k
              simpa [replayAttached] using hinv
            · intro a ha
              exact absurd ha (by simp)
            · intro hcur
              exact absurd rfl hcur
          | some a0 =>
            have hne : a0 ≠ name := fun h => h3 (by rw [h])
            have he : apply_lora loraDir (some e) (some p) (some a0) name w =
                ⟨some ⟨[]⟩, some a0, [LoraEvent.unload], some e⟩ := by
              simp [apply_lora, h1.1, h1.2, h2, hne]
            rw [he]
            refine ⟨by simp [attachedCount], by simp, ?_, ?_, ?_⟩
            · intro k
              rcases k with _ | k <;> simp [replayAttached, attachedCount]
              omega
            · intro a _ _ _ _ _ hcontra
              exact absurd hcontra (by simp)
            · intro _ hOff
              rcases hOff with h | h
              · exact absurd h h1.1
              · exact absurd h h1.2
        | none =>
          cases cur with
          | none =>
            rw [apply_lora_fresh loraDir p name w h1.1 h1.2 h2]
            have hz : p.attached.length = 0 := hcons rfl
            refine ⟨by simp [attachedCount, hz], by simp, ?_, ?_, ?_⟩
            · intro k
              have hz' : attachedCount (some p) = 0 := hcons rfl
              rcases k with _ | _ | k <;> simp [replayAttached, hz']
            · intro a ha
              exact absurd ha (by simp)
            · intro hcur
              exact absurd rfl hcur
          | some a0 =>
            have hne : name ≠ a0 := fun h => h3 (by rw [h])
            rw [apply_lora_swap loraDir p a0 name w h1.1 h1.2 h2 hne]
            refine ⟨by simp [attachedCount], by simp, ?_, ?_, ?_⟩
            · intro k
              rcases k with _ | _ | _ | k <;>
                simp [replayAttached, attachedCount]
              omega
            · intro a _ _ _ _ _ _
              rfl
            · intro _ hOff
              rcases hOff with h | h
              · exact absurd h h1.1
              · exact absurd h h1.2
    · have he : apply_lora loraDir loadErr (some p) cur name w =
          ⟨some p, cur, [], none⟩ := by
        simp [apply_lora, h1, h2]
      rw [he]
      refine ⟨hinv, fun hc => hcons hc, ?_, ?_, ?_⟩
      · intro k
        simpa [replayAttached] using hinv
      · intro a _ _ _ hmem
        exact absurd hmem h2
      · intro _ hOff
        rcases hOff with h | h
        · exact absurd (Or.inl h) h1
        · exact absurd (Or.inr h) h1

/-- Witness for C5 at a concrete swap from adapter "a" to adapter "b". -/
theorem single_adapter_invariant_witness :
    attachedCount (apply_lora ["a.st", "b.st"] none (some ⟨["active"]⟩)
        (some "a.st") "b.st" 1).pipe ≤ 1
    ∧ ((apply_lora ["a.st", "b.st"] none (some ⟨["active"]⟩)
        (some "a.st") "b.st" 1).currentLora = none →
        attachedCount (apply_lora ["a.st", "b.st"] none (some ⟨["active"]⟩)
          (some "a.st") "b.st" 1).pipe = 0)
    ∧ (∀ k, replayAttached (attachedCount (some ⟨["active"]⟩))
        ((apply_lora ["a.st", "b.st"] none (some ⟨["active"]⟩)
          (some "a.st") "b.st" 1).events.take k) ≤ 1)
    ∧ (∀ a, (some "a.st" : Option String) = some a → "b.st" ≠ "" →
        "b.st" ≠ "Off" → "b.st" ∈ ["a.st", "b.st"] → "b.st" ≠ a →
        (none : Option String) = none →
        (apply_lora ["a.st", "b.st"] none (some ⟨["active"]⟩)
          (some "a.st") "b.st" 1).events =
          [LoraEvent.unload, LoraEvent.load "b.st", LoraEvent.setWeight 1])
    ∧ ((some "a.st" : Option String) ≠ none → ("b.st" = "" ∨ "b.st" = "Off") →
        (apply_lora ["a.st", "b.st"] none (some ⟨["active"]⟩)
          (some "a.st") "b.st" 1).events = [LoraEvent.unload]
        ∧ (apply_lora ["a.st", "b.st"] none (some ⟨["active"]⟩)
          (some "a.st") "b.st" 1).currentLora = none) :=
  single_adapter_invariant ["a.st", "b.st"] none ⟨["active"]⟩
    (some "a.st") "b.st" 1 (by decide) (by decide)

/-- C8: any failure raised by the inference engine is caught and
translated into an error result carrying the underlying reason (never an
uncaught fault — `generate_image` is total and always returns a result,
i.e. control returns to the idle caller), and
`torch.cuda.empty_cache()` runs on both the success and the failure exit
paths of the inference block. -/
theorem inference_failure_translated
    (loraDir : List String) (loadErr : Option String) (p : Pipe)
    (currentLora0 : Option String) (outputFiles0 : List String)
    (randDraw : Nat) (inference : Except String Image)
    (timestamp durationStr prompt : String) (steps seed width height : Int)
    (loraName : String) (loraWeight : Rat)
    (hprompt : pyStrip prompt ≠ "") (hload : loadErr = none) :
    (∀ e, inference = Except.error e →
        (generate_image loraDir loadErr (some p) currentLora0 outputFiles0
            randDraw inference timestamp durationStr prompt steps seed width
            height loraName loraWeight).image = none
        ∧ (generate_image loraDir loadErr (some p) currentLora0 outputFiles0
            randDraw inference timestamp durationStr prompt steps seed width
            height loraName loraWeight).status = "Error: " ++ e
        ∧ (generate_image loraDir loadErr (some p) currentLora0 outputFiles0
            randDraw inference timestamp durationStr prompt steps seed width
            height loraName loraWeight).cacheCleared = true)
    ∧ (∀ img, inference = Except.ok img →
        (generate_image loraDir loadErr (some p) currentLora0 outputFiles0
            randDraw inference timestamp durationStr prompt steps seed width
            height loraName loraWeight).image = some img
        ∧ (generate_image loraDir loadErr (some p) currentLora0 outputFiles0
            randDraw inference timestamp durationStr prompt steps seed width
            height loraName loraWeight).cacheCleared = true) := by
  have hp : ¬ (prompt = "" ∨ pyStrip prompt = "") := by
    rintro (he | he)
    · exact hprompt (by rw [he]; rfl)
    · exact hprompt he
  subst hload
  constructor
  · intro e hinf
    subst hinf
    simp only [generate_image, if_neg hp, apply_lora_err_none]
    exact ⟨trivial, trivial, trivial⟩
  · intro img hinf
    subst hinf
    simp only [generate_image, if_neg hp, apply_lora_err_none]
    exact ⟨trivial, trivial⟩

/-- Witness for C8: a raised inference error "CUDA out of memory" is
returned as a typed error status with the cache cleared; a success also
clears the cache. -/
theorem inference_failure_translated_witness :
    ((generate_image [] none (some ⟨[]⟩) none [] 0
        (Except.error "CUDA out of memory") "T" "1.00" "a cat" 8 42 1024
        1024 "Off" 1).status = "Error: CUDA out of memory")
    ∧ ((generate_image [] none (some ⟨[]⟩) none [] 0
        (Except.error "CUDA out of memory") "T" "1.00" "a cat" 8 42 1024
        1024 "Off" 1).cacheCleared = true)
    ∧ ((generate_image [] none (some ⟨[]⟩) none [] 0 (Except.ok ⟨1⟩) "T"
        "1.00" "a cat" 8 42 1024 1024 "Off" 1).cacheCleared = true) := by
  have h1 := (inference_failure_translated [] none ⟨[]⟩ none [] 0
    (Except.error "CUDA out of memory") "T" "1.00" "a cat" 8 42 1024 1024
    "Off" 1 (by decide) rfl).1 "CUDA out of memory" rfl
  have h2 := (inference_failure_translated [] none ⟨[]⟩ none [] 0
    (Except.ok ⟨1⟩) "T" "1.00" "a cat" 8 42 1024 1024
    "Off" 1 (by decide) rfl).2 ⟨1⟩ rfl
  exact ⟨h1.2.1, h1.2.2, h2.2⟩

/-- C1 counterexample: with an empty adapter directory, a request naming
the absent adapter "style.safetensors" does NOT fail before inference:
the inference call is issued and an image is returned, so no
AdapterNotFound-style failure result exists (only the active-adapter
state being unchanged holds). -/
theorem adapter_missing_counterexample :
    (generate_image [] none (some ⟨[]⟩) none [] 0 (Except.ok ⟨3⟩) "T" "1.00"
        "a red cube" 8 42 1024 1024 "style.safetensors" 1).image = some ⟨3⟩
    ∧ (generate_image [] none (some ⟨[]⟩) none [] 0 (Except.ok ⟨3⟩) "T"
        "1.00" "a red cube" 8 42 1024 1024 "style.safetensors" 1).inferCall =
      some ⟨"a red cube", 8, 0, 1024, 1024, 1024, 42⟩
    ∧ (generate_image [] none (some ⟨[]⟩) none [] 0 (Except.ok ⟨3⟩) "T"
        "1.00" "a red cube" 8 42 1024 1024 "style.safetensors" 1).currentLora =
      none := by
  refine ⟨?_, ?_, ?_⟩ <;> decide

/-- C1 (amended): if the adapter file named in the request does not
exist in the adapter directory at call time, `apply_lora` leaves the
active-adapter state of the model unchanged and issues no pipeline call, but
`generate_image` does NOT fail: it proceeds to inference under the prior
adapter state and, on inference success, produces an image. -/
theorem adapter_missing_skipped_silently
    (loraDir : List String) (loadErr : Option String) (p : Pipe)
    (currentLora0 : Option String) (outputFiles0 : List String)
    (randDraw : Nat) (inference : Except String Image)
    (timestamp durationStr prompt : String) (steps seed width height : Int)
    (loraName : String) (loraWeight : Rat)
    (hmiss : loraName ∉ loraDir) (hname1 : loraName ≠ "")
    (hname2 : loraName ≠ "Off") (hprompt : pyStrip prompt ≠ "") :
    (apply_lora loraDir loadErr (some p) currentLora0 loraName loraWeight =
        ⟨some p, currentLora0, [], none⟩)
    ∧ ((generate_image loraDir loadErr (some p) currentLora0 outputFiles0
        randDraw inference timestamp durationStr prompt steps seed width
        height loraName loraWeight).pipe = some p
      ∧ (generate_image loraDir loadErr (some p) currentLora0 outputFiles0
        randDraw inference timestamp durationStr prompt steps seed width
        height loraName loraWeight).currentLora = currentLora0
      ∧ (generate_image loraDir loadErr (some p) currentLora0 outputFiles0
        randDraw inference timestamp durationStr prompt steps seed width
        height loraName loraWeight).loraEvents = [])
    ∧ ((generate_image loraDir loadErr (some p) currentLora0 outputFiles0
        randDraw inference timestamp durationStr prompt steps seed width
        height loraName loraWeight).inferCall =
        some ⟨prompt, steps, 0, width, height, 1024,
          resolve_seed seed randDraw⟩)
    ∧ (∀ img, inference = Except.ok img →
        (generate_image loraDir loadErr (some p) currentLora0 outputFiles0
          randDraw inference timestamp durationStr prompt steps seed width
          height loraName loraWeight).image = some img) := by
  have hp : ¬ (prompt = "" ∨ pyStrip prompt = "") := by
    rintro (he | he)
    · exact hprompt (by rw [he]; rfl)
    · exact hprompt he
  have hap : apply_lora loraDir loadErr (some p) currentLora0 loraName
      loraWeight = ⟨some p, currentLora0, [], none⟩ := by
    simp [apply_lora, hname1, hname2, hmiss]
  refine ⟨hap, ?_, ?_, ?_⟩
  · simp only [generate_image, if_neg hp, hap]
    cases inference <;> exact ⟨rfl, rfl, rfl⟩
  · simp only [generate_image, if_neg hp, hap]
    cases inference <;> rfl
  · intro img hinf
    subst hinf
    simp only [generate_image, if_neg hp, hap]

/-- Witness for C1 (amended) at concrete inputs. -/
theorem adapter_missing_skipped_silently_witness :
    (apply_lora ["other.safetensors"] none (some ⟨["active"]⟩)
        (some "other.safetensors") "style.safetensors" 1 =
      ⟨some ⟨["active"]⟩, some "other.safetensors", [], none⟩)
    ∧ ((generate_image ["other.safetensors"] none (some ⟨["active"]⟩)
        (some "other.safetensors") [] 0 (Except.ok ⟨5⟩) "T" "1.00"
        "a red cube" 8 42 1024 1024 "style.safetensors" 1).pipe =
          some ⟨["active"]⟩
      ∧ (generate_image ["other.safetensors"] none (some ⟨["active"]⟩)
        (some "other.safetensors") [] 0 (Except.ok ⟨5⟩) "T" "1.00"
        "a red cube" 8 42 1024 1024 "style.safetensors" 1).currentLora =
          some "other.safetensors"
      ∧ (generate_image ["other.safetensors"] none (some ⟨["active"]⟩)
        (some "other.safetensors") [] 0 (Except.ok ⟨5⟩) "T" "1.00"
        "a red cube" 8 42 1024 1024 "style.safetensors" 1).loraEvents = [])
    ∧ ((generate_image ["other.safetensors"] none (some ⟨["active"]⟩)
        (some "other.safetensors") [] 0 (Except.ok ⟨5⟩) "T" "1.00"
        "a red cube" 8 42 1024 1024 "style.safetensors" 1).inferCall =
        some ⟨"a red cube", 8, 0, 1024, 1024, 1024, resolve_seed 42 0⟩)
    ∧ (∀ img, (Except.ok ⟨5⟩ : Except String Image) = Except.ok img →
        (generate_image ["other.safetensors"] none (some ⟨["active"]⟩)
          (some "other.safetensors") [] 0 (Except.ok ⟨5⟩) "T" "1.00"
          "a red cube" 8 42 1024 1024 "style.safetensors" 1).image =
          some img) :=
  adapter_missing_skipped_silently ["other.safetensors"] none ⟨["active"]⟩
    (some "other.safetensors") [] 0 (Except.ok ⟨5⟩) "T" "1.00" "a red cube"
    8 42 1024 1024 "style.safetensors" 1 (by decide) (by decide) (by decide)
    (by decide)

/-- C3 counterexample: a request with width 100 (< 512), height 4096
(> 2048) and steps 99 (> 50) reaches the inference call with exactly
those values — nothing clamps them into the declared ranges. -/
theorem dimensions_clamped_counterexample :
    (generate_image [] none (some ⟨[]⟩) none [] 0 (Except.ok ⟨0⟩) "T" "1.00"
        "a red cube" 99 42 100 4096 "Off" 1).inferCall =
      some ⟨"a red cube", 99, 0, 100, 4096, 1024, 42⟩
    ∧ (100 : Int) < 512 ∧ (2048 : Int) < 4096 ∧ (50 : Int) < 99 := by
  refine ⟨?_, ?_, ?_, ?_⟩ <;> decide

/-- C3 (amended): `generate_image` performs no clamping and no
range-check on width/height/steps: whatever integer values reach it, the
inference call receives exactly the requested values (the declared
ranges [512, 2048] and [1, 50] exist only as UI slider bounds). -/
theorem dimensions_passed_unclamped
    (loraDir : List String) (loadErr : Option String) (p : Pipe)
    (currentLora0 : Option String) (outputFiles0 : List String)
    (randDraw : Nat) (inference : Except String Image)
    (timestamp durationStr prompt : String) (steps seed width height : Int)
    (loraName : String) (loraWeight : Rat)
    (hprompt : pyStrip prompt ≠ "") (hload : loadErr = none) :
    (generate_image loraDir loadErr (some p) currentLora0 outputFiles0
        randDraw inference timestamp durationStr prompt steps seed width
        height loraName loraWeight).inferCall =
      some ⟨prompt, steps, 0, width, height, 1024,
        resolve_seed seed randDraw⟩ := by
  have hp : ¬ (prompt = "" ∨ pyStrip prompt = "") := by
    rintro (he | he)
    · exact hprompt (by rw [he]; rfl)
    · exact hprompt he
  subst hload
  simp only [generate_image, if_neg hp, apply_lora_err_none]
  cases inference <;> rfl

/-- Witness for C3 (amended) at out-of-range concrete inputs. -/
theorem dimensions_passed_unclamped_witness :
    (generate_image [] none (some ⟨[]⟩) none [] 7 (Except.ok ⟨0⟩) "T" "1.00"
        "a red cube" 0 (-1) 5000 1 "Off" 1).inferCall =
      some ⟨"a red cube", 0, 0, 5000, 1, 1024, resolve_seed (-1) 7⟩ :=
  dimensions_passed_unclamped [] none ⟨[]⟩ none [] 7 (Except.ok ⟨0⟩) "T"
    "1.00" "a red cube" 0 (-1) 5000 1 "Off" 1 (by decide) rfl

/-- C6 counterexample: when a file with the identical derived name
already exists in the output directory, the save is NOT flagged as an
error: the run returns the plain success status and an image, and the
write proceeds (the duplicated name in the directory model records the
silent overwrite). -/
theorem overwrite_not_flagged_counterexample :
    (generate_image [] none (some ⟨[]⟩) none
        ["Z-Image_20260101-000000_seed42.png"] 0 (Except.ok ⟨1⟩)
        "20260101-000000" "1.00" "x" 8 42 512 512 "Off" 1).status =
      "✅ Done in 1.00s! Seed: 42"
    ∧ (generate_image [] none (some ⟨[]⟩) none
        ["Z-Image_20260101-000000_seed42.png"] 0 (Except.ok ⟨1⟩)
        "20260101-000000" "1.00" "x" 8 42 512 512 "Off" 1).outputFiles =
      ["Z-Image_20260101-000000_seed42.png",
        "Z-Image_20260101-000000_seed42.png"]
    ∧ (generate_image [] none (some ⟨[]⟩) none
        ["Z-Image_20260101-000000_seed42.png"] 0 (Except.ok ⟨1⟩)
        "20260101-000000" "1.00" "x" 8 42 512 512 "Off" 1).image =
      some ⟨1⟩ := by
  refine ⟨?_, ?_, ?_⟩ <;> decide

/-- C6 (amended): every saved output file name is deterministically
derived from the fixed prefix, the second-precision timestamp and the
resolved seed (pattern `Z-Image_<timestamp>_seed<seed>.png`), and two
saves in the same second with different (nonnegative) seeds never
collide; but an existing file with the identical name is NOT flagged:
the save happens unconditionally (silent overwrite), with the same
success status whether or not the name already existed. -/
theorem output_naming_amended
    (loraDir : List String) (loadErr : Option String) (p : Pipe)
    (currentLora0 : Option String) (outputFiles0 : List String)
    (randDraw : Nat) (inference : Except String Image)
    (timestamp durationStr prompt : String) (steps seed width height : Int)
    (loraName : String) (loraWeight : Rat)
    (hprompt : pyStrip prompt ≠ "") (hload : loadErr = none) :
    (∀ s1 s2 : Int, 0 ≤ s1 → 0 ≤ s2 → s1 ≠ s2 →
        output_filename timestamp s1 ≠ output_filename timestamp s2)
    ∧ (∀ img, inference = Except.ok img →
        (generate_image loraDir loadErr (some p) currentLora0 outputFiles0
          randDraw inference timestamp durationStr prompt steps seed width
          height loraName loraWeight).outputFiles =
          outputFiles0 ++
            [output_filename timestamp (resolve_seed seed randDraw)]
        ∧ (generate_image loraDir loadErr (some p) currentLora0 outputFiles0
          randDraw inference timestamp durationStr prompt steps seed width
          height loraName loraWeight).status =
          "✅ Done in " ++ durationStr ++ "s! Seed: " ++
            toString (resolve_seed seed randDraw) ++
            lora_info loraName loraWeight) := by
  have hp : ¬ (prompt = "" ∨ pyStrip prompt = "") := by
    rintro (he | he)
    · exact hprompt (by rw [he]; rfl)
    · exact hprompt he
  subst hload
  constructor
  · intro s1 s2 h1 h2 hne heq
    exact hne (output_filename_inj timestamp s1 s2 h1 h2 heq)
  · intro img hinf
    subst hinf
    simp only [generate_image, if_neg hp, apply_lora_err_none]
    exact ⟨trivial, trivial⟩

/-- Witness for C6 (amended): distinct seeds 7 and 8 in the same second
give distinct names, and a concrete successful run saves exactly the
derived name (here with an already-existing identical name, showing the
unflagged overwrite). -/
theorem output_naming_amended_witness :
    ((0 : Int) ≤ 7 ∧ (0 : Int) ≤ 8 ∧ (7 : Int) ≠ 8 ∧
      output_filename "20260101-000000" 7 ≠ output_filename "20260101-000000" 8)
    ∧ (generate_image [] none (some ⟨[]⟩) none
        ["Z-Image_20260101-000000_seed42.png"] 0 (Except.ok ⟨1⟩)
        "20260101-000000" "1.00" "x" 8 42 512 512 "Off" 1).outputFiles =
      ["Z-Image_20260101-000000_seed42.png"] ++
        [output_filename "20260101-000000" (resolve_seed 42 0)] := by
  have h := output_naming_amended [] none ⟨[]⟩ none
    ["Z-Image_20260101-000000_seed42.png"] 0 (Except.ok ⟨1⟩)
    "20260101-000000" "1.00" "x" 8 42 512 512 "Off" 1 (by decide) rfl
  exact ⟨⟨by decide, by decide, by decide,
    h.1 7 8 (by decide) (by decide) (by decide)⟩, (h.2 ⟨1⟩ rfl).1⟩

end ZImage
